import Mathlib

/-!
Shallow embedding of the resource-lifecycle core of the repository:
`src/model_manager.py` (class `ModelManager`) and
`src/multi_model_manager.py` (class `MultiModelManager`).

Modelling conventions:
* Machine time stamps (`time.time()`) are `Nat` time units supplied as
  explicit arguments.
* The loaded ASR model handle is abstracted to a `Nat` identity: the core
  treats it as an opaque resource handle.
* The backend load step (`ModelManager._load_model`, an external NeMo call)
  is an oracle argument of type `Except String Nat`: `Except.ok h` means the
  load produced handle `h`, `Except.error e` means it raised exception `e`.
* Every public operation of `ModelManager` holds the manager's reentrant
  lock `self._lock` for its entire body (the load included), so each
  operation is atomic with respect to the others; concurrency is modelled
  as arbitrary interleavings of these atomic operations (`MMOp` below).
* Python `None` for the model slot is `Option.none`; Python falsy-`or`
  defaulting in `__init__` is modelled by explicit emptiness tests.
* `os.path.abspath` is an OS call outside the core (pure path
  normalisation); it is not modelled and the pre-`abspath` string is kept.
-/

/-- Environment variables read by `ModelManager.__init__` and
`MultiModelManager.__init__` (`os.getenv`), plus the computed
`default_path` (`<repo>/models`, derived from `__file__` by the OS layer).
`MODEL_TIMEOUT_SEC` is modelled already parsed by `int(...)`;
`USE_FP16` already compared against `"true"`. -/
structure Env where
  MODEL_PATH : Option String
  MODEL_NAME : Option String
  MODEL_TIMEOUT_SEC : Option Nat
  USE_FP16 : Option Bool
  default_models_dir : String
deriving DecidableEq

/-- Python `a or b` for an optional string argument: `None` and `""` are
falsy, so the default is substituted for both. -/
def pyOrStrOpt (a : Option String) (d : String) : String :=
  match a with
  | none => d
  | some s => if s = "" then d else s

/-- Python `a or b` for a string argument: `""` is falsy. -/
def pyOrStr (a : String) (d : String) : String :=
  if a = "" then d else a

/-- Python `a or b` for an int argument: `0` is falsy. -/
def pyOrNat (a : Nat) (d : Nat) : Nat :=
  if a = 0 then d else a

/-- State of one `ModelManager` (src/model_manager.py).  Fields mirror the
instance attributes set in `__init__`: `self.model_path`, `self.model_name`,
`self.timeout_sec`, `self.use_fp16`, `self._model`, `self._usage_count`,
`self._last_used_time`, `self._is_loading`, and whether the timeout-monitor
thread is running (`self._monitor_thread` alive). -/
structure MMState where
  model_path : String
  model_name : String
  timeout_sec : Nat
  use_fp16 : Bool
  model : Option Nat
  usage_count : Nat
  last_used_time : Nat
  is_loading : Bool
  monitor_running : Bool
deriving DecidableEq

/-- Embeds `ModelManager.__init__` (src/model_manager.py lines 45-90).
`model_path or os.getenv("MODEL_PATH", default_path)`,
`model_name or os.getenv("MODEL_NAME", "nvidia/canary-1b-v2")`,
`timeout_sec or int(os.getenv("MODEL_TIMEOUT_SEC", "300"))`,
`use_fp16 if use_fp16 is not None else os.getenv("USE_FP16","true")...`;
model slot empty, usage count 0, not loading, monitor thread not started. -/
def mkModelManager (env : Env) (model_path : Option String) (model_name : String)
    (timeout_sec : Nat) (use_fp16 : Option Bool) : MMState :=
  { model_path := pyOrStrOpt model_path (env.MODEL_PATH.getD env.default_models_dir)
    model_name := pyOrStr model_name (env.MODEL_NAME.getD "nvidia/canary-1b-v2")
    timeout_sec := pyOrNat timeout_sec (env.MODEL_TIMEOUT_SEC.getD 300)
    use_fp16 := use_fp16.getD (env.USE_FP16.getD true)
    model := none
    usage_count := 0
    last_used_time := 0
    is_loading := false
    monitor_running := false }

/-- Embeds `ModelManager._unload_model` (lines 199-228): returns immediately when
no model is loaded; skips (no change) when `self._usage_count > 0`;
otherwise drops the model reference (and empties the CUDA cache, an
external effect). -/
def unload_model_py (s : MMState) : MMState :=
  match s.model with
  | none => s
  | some _ =>
    if s.usage_count > 0 then s
    else { s with model := none }

/-- One wake-up of `ModelManager._monitor_timeout`'s loop body
(lines 242-260): skip when no model, skip when `usage_count > 0`, else
unload when `now - last_used_time >= timeout_sec`. -/
def monitor_tick (s : MMState) (now : Nat) : MMState :=
  match s.model with
  | none => s
  | some _ =>
    if s.usage_count > 0 then s
    else if s.timeout_sec ≤ now - s.last_used_time then unload_model_py s
    else s

/-- Embeds `ModelManager.ensure_model_loaded` (lines 282-302), the whole body
under `self._lock`.  Result value is what the Python function returns
(`self._model`, hence an `Option`): if a model is present, return it; if
another thread is flagged as loading, the code only logs and falls through
to `return self._model`, i.e. returns `none`; otherwise run the load step
(the `loadResult` oracle), store the model and start the monitor on
success, propagate the exception (clearing `_is_loading` in `finally`) on
failure. -/
def ensure_model_loaded (s : MMState) (loadResult : Except String Nat) :
    Except String (Option Nat) × MMState :=
  match s.model with
  | some m => (Except.ok (some m), s)
  | none =>
    if s.is_loading then
      (Except.ok none, s)
    else
      match loadResult with
      | Except.ok h =>
          (Except.ok (some h), { s with model := some h, monitor_running := true })
      | Except.error e => (Except.error e, s)

/-- Entry half of the `ModelManager.get_model` context manager
(lines 320-330): under the lock, `ensure_model_loaded`, then increment
`self._usage_count` and stamp `self._last_used_time`.  If the load raises,
the generator's `finally` still runs: `usage_count = max(0, usage_count-1)`
(Nat subtraction) and the time stamp is refreshed, and the exception
propagates to the caller. -/
def get_model_enter (s : MMState) (loadResult : Except String Nat) (now : Nat) :
    Except String (Option Nat) × MMState :=
  match ensure_model_loaded s loadResult with
  | (Except.ok m, s1) =>
      (Except.ok m, { s1 with usage_count := s1.usage_count + 1, last_used_time := now })
  | (Except.error e, s1) =>
      (Except.error e, { s1 with usage_count := s1.usage_count - 1, last_used_time := now })

/-- Exit half of the `ModelManager.get_model` context manager
(lines 332-336): decrement the usage count, never below zero
(`max(0, c - 1)` is `Nat` subtraction), refresh the time stamp. -/
def get_model_exit (s : MMState) (now : Nat) : MMState :=
  { s with usage_count := s.usage_count - 1, last_used_time := now }

/-- Embeds `ModelManager.force_unload` (lines 371-384): under the lock, refuse
(`False`, untouched state) when `usage_count > 0`, else `_unload_model`
and report `True`. -/
def force_unload (s : MMState) : Bool × MMState :=
  if s.usage_count > 0 then (false, s)
  else (true, unload_model_py s)

/-- Embeds `ModelManager.force_load` (lines 386-398): call `ensure_model_loaded`,
report `True` unless it raised, in which case catch and report `False`. -/
def force_load (s : MMState) (loadResult : Except String Nat) : Bool × MMState :=
  match ensure_model_loaded s loadResult with
  | (Except.ok _, s1) => (true, s1)
  | (Except.error _, s1) => (false, s1)

/-- Embeds `ModelManager.shutdown` (lines 400-414): stop the monitor thread, then
`_unload_model` if a model is present (still gated on the usage count
inside `_unload_model`). -/
def shutdown_manager (s : MMState) : MMState :=
  let s1 := { s with monitor_running := false }
  match s1.model with
  | some _ => unload_model_py s1
  | none => s1

/-- The atomic operations on one `ModelManager`.  Each corresponds to one
critical section executed while holding `self._lock`; the reentrant lock
serialises them, so any concurrent execution is an interleaving of these
steps. -/
inductive MMOp where
  | ensure (loadResult : Except String Nat)
  | enter (loadResult : Except String Nat) (now : Nat)
  | leave (now : Nat)
  | tick (now : Nat)
  | funload
  | fload (loadResult : Except String Nat)
  | shut

/-- State transition of one atomic operation. -/
def applyOp (s : MMState) : MMOp → MMState
  | MMOp.ensure r => (ensure_model_loaded s r).2
  | MMOp.enter r now => (get_model_enter s r now).2
  | MMOp.leave now => get_model_exit s now
  | MMOp.tick now => monitor_tick s now
  | MMOp.funload => (force_unload s).2
  | MMOp.fload r => (force_load s r).2
  | MMOp.shut => shutdown_manager s

/-- Run a sequence of atomic operations. -/
def runOps (s : MMState) (ops : List MMOp) : MMState :=
  ops.foldl applyOp s

/-- A manager state is reachable when some sequence of atomic operations
produces it from a freshly constructed manager. -/
def Reachable (s : MMState) : Prop :=
  ∃ env mp mn ts fp ops, runOps (mkModelManager env mp mn ts fp) ops = s

/-- Sequential run of N first-time `get_model` entries (the interleaving of
N concurrent callers, each critical section being atomic).  `handles` gives
the oracle handle each caller's load step would produce if it executed;
returns the per-caller results, the final state, and how many times the
load step actually executed (the branch `model is None and not is_loading`
of `ensure_model_loaded`, the only place `_load_model` is invoked). -/
def run_enters (s : MMState) (handles : List Nat) (now : Nat) :
    List (Except String (Option Nat)) × MMState × Nat :=
  match handles with
  | [] => ([], s, 0)
  | h :: rest =>
    let willLoad := s.model.isNone && !s.is_loading
    let r := get_model_enter s (Except.ok h) now
    let rec' := run_enters r.2 rest now
    (r.1 :: rec'.1, rec'.2.1, (if willLoad then 1 else 0) + rec'.2.2)

/-- Embeds `ModelManager._monitor_timeout`'s check interval (line 238):
`min(30, self.timeout_sec // 2)`, Python floor division. -/
def check_interval (timeout_sec : Nat) : Nat :=
  min 30 (timeout_sec / 2)

/-- Modelled from the spec: section 4.2 states the monitor period as
`min(30, timeout_sec / 2)` with exact (field) division, stated over ℚ for
comparison with the code's integer computation. -/
def spec_check_period (timeout_sec : Nat) : ℚ :=
  min 30 ((timeout_sec : ℚ) / 2)

/-! ### Embedding of `src/multi_model_manager.py` (`MultiModelManager`) -/

/-- One entry of `MultiModelManager.MODEL_CONFIGS` (lines 36-47). -/
structure ModelConfig where
  hf_name : String
  nemo_filename : String
  description : String
deriving DecidableEq

/-- Embeds `MultiModelManager.MODEL_CONFIGS`: the known-configuration table. -/
def MODEL_CONFIGS : List (String × ModelConfig) :=
  [("canary-1b-v2",
    { hf_name := "nvidia/canary-1b-v2",
      nemo_filename := "canary-1b-v2.nemo",
      description := "Canary 1B v2 多语言 ASR 模型" }),
   ("parakeet-tdt-0.6b-v3",
    { hf_name := "nvidia/parakeet-tdt-0.6b-v3",
      nemo_filename := "parakeet-tdt-0.6b-v3.nemo",
      description := "Parakeet TDT 0.6B v3 ASR 模型" })]

/-- Python-level runtime errors surfaced by the embedding. -/
inductive PyErr where
  | typeError
  | attributeError
  | valueError
deriving DecidableEq

/-- The formal parameter names of `ModelManager.__init__`
(src/model_manager.py lines 45-51): besides `self`, exactly
`model_path`, `model_name`, `timeout_sec`, `use_fp16`. -/
def modelManagerInitParams : List String :=
  ["model_path", "model_name", "timeout_sec", "use_fp16"]

/-- The keyword-argument names `MultiModelManager._initialize_managers`
passes to `ModelManager(...)` (src/multi_model_manager.py lines 107-113). -/
def initManagersKwargs : List String :=
  ["model_path", "model_name", "nemo_filename", "timeout_sec", "use_fp16"]

/-- A Python call to `ModelManager(...)` with keyword arguments: CPython
raises `TypeError` ("unexpected keyword argument") before the body runs
when any keyword name is not a formal parameter; otherwise `__init__`
executes (`mkModelManager`). -/
def callModelManagerInit (env : Env) (kwargNames : List String)
    (model_path : Option String) (model_name : String)
    (timeout_sec : Nat) (use_fp16 : Option Bool) : Except PyErr MMState :=
  if kwargNames.all (fun k => modelManagerInitParams.contains k) then
    Except.ok (mkModelManager env model_path model_name timeout_sec use_fp16)
  else
    Except.error PyErr.typeError

/-- Embeds `MultiModelManager._initialize_managers` (lines 98-116): for each
enabled name, skip it when absent from `MODEL_CONFIGS` (warn + `continue`),
otherwise construct a `ModelManager` with keyword arguments
`model_path=self.models_base_path`, `model_name=config["hf_name"]`,
`nemo_filename=config["nemo_filename"]`, `timeout_sec=self.timeout_sec`,
`use_fp16=self.use_fp16`, and record it under the canonical name.  An
exception escaping the constructor aborts `__init__`. -/
def init_managers (env : Env) (base_path : String) (timeout_sec : Nat)
    (use_fp16 : Bool) : List String → Except PyErr (List (String × MMState))
  | [] => Except.ok []
  | name :: rest =>
    match (MODEL_CONFIGS.lookup name) with
    | none => init_managers env base_path timeout_sec use_fp16 rest
    | some cfg =>
      match callModelManagerInit env initManagersKwargs
          (some base_path) cfg.hf_name timeout_sec (some use_fp16) with
      | Except.ok mgr =>
        (init_managers env base_path timeout_sec use_fp16 rest).map
          (fun tbl => (name, mgr) :: tbl)
      | Except.error e => Except.error e

/-- Alias table inside `MultiModelManager._normalize_model_name`
(lines 154-159). -/
def alias_map : List (String × String) :=
  [("canary", "canary-1b-v2"),
   ("canary-1b", "canary-1b-v2"),
   ("parakeet", "parakeet-tdt-0.6b-v3"),
   ("parakeet-tdt", "parakeet-tdt-0.6b-v3")]

/-- Embeds `MultiModelManager._normalize_model_name` (lines 140-161): strip a
leading `"nvidia/"` (`model_name.startswith("nvidia/")` then
`model_name[7:]`, both character-based in Python, modelled on the
character list), then map documented short aliases to canonical names
(`alias_map.get(model_name, model_name)`). -/
def normalize_model_name (model_name : String) : String :=
  let m := if "nvidia/".data.isPrefixOf model_name.data
           then String.mk (model_name.data.drop 7) else model_name
  (alias_map.lookup m).getD m

/-- Embeds `MultiModelManager.get_model_manager` (lines 118-138): normalise the
requested name and look it up in `self._managers`; `None` when the model is
not enabled.  The method performs no insertion: the router table is
read-only here. -/
def get_model_manager (table : List (String × MMState)) (model_name : String) :
    Option MMState :=
  table.lookup (normalize_model_name model_name)

/-- Resolution step of `MultiModelManager.get_model` (lines 163-186):
`ValueError` when `get_model_manager` returns `None`, otherwise the lease
is delegated to the resolved manager's `get_model` context manager. -/
def multi_get_model (table : List (String × MMState)) (model_name : String) :
    Except PyErr MMState :=
  match get_model_manager table model_name with
  | none => Except.error PyErr.valueError
  | some mgr => Except.ok mgr

/-- The methods the class body of `ModelManager`
(src/model_manager.py) actually defines. -/
def modelManagerMethods : List String :=
  ["_check_local_model_exists", "_get_model_source", "_load_model",
   "_unload_model", "_monitor_timeout", "_start_monitor", "_stop_monitor",
   "ensure_model_loaded", "get_model", "get_status", "force_unload",
   "force_load", "shutdown"]

/-- Dispatch table of `ModelManager`'s boolean-returning methods, used to
model Python attribute lookup on a manager instance: only `force_load` and
`force_unload` exist; looking up any other name yields `None`
(`AttributeError` at the call site). -/
def modelManagerBoolMethod (loadResult : Except String Nat) :
    String → Option (MMState → Bool × MMState)
  | "force_load" => some (fun s => force_load s loadResult)
  | "force_unload" => some force_unload
  | _ => none

/-- Embeds `MultiModelManager.load_model` (lines 188-202): resolve the name
(`False` when not available), then evaluate `manager.load_model()` —
attribute lookup of `"load_model"` on the `ModelManager` instance precedes
the call and raises `AttributeError` when no such method exists. -/
def multi_load_model (table : List (String × MMState)) (model_name : String)
    (loadResult : Except String Nat) : Except PyErr Bool :=
  match get_model_manager table model_name with
  | none => Except.ok false
  | some mgr =>
    match modelManagerBoolMethod loadResult "load_model" with
    | some f => Except.ok (f mgr).1
    | none => Except.error PyErr.attributeError

/-- A concrete environment with no variables set. -/
def envEx : Env :=
  { MODEL_PATH := none, MODEL_NAME := none, MODEL_TIMEOUT_SEC := none,
    USE_FP16 := none, default_models_dir := "/repo/models" }

/-- A freshly constructed manager with the defaults. -/
def mgrEx : MMState :=
  mkModelManager envEx none "nvidia/canary-1b-v2" 300 (some true)

/-- A loaded manager with two outstanding leases. -/
def busyMgr : MMState :=
  { mgrEx with model := some 7, usage_count := 2, last_used_time := 5 }

/-- A loaded manager with no outstanding lease. -/
def idleMgr : MMState :=
  { mgrEx with model := some 7, usage_count := 0, last_used_time := 5 }

/-- Claim C1: constructing the multi-model router with any recognized
enabled canonical name does NOT succeed: `_initialize_managers` passes the
keyword argument `nemo_filename`, which `ModelManager.__init__` does not
accept, so the construction raises `TypeError` instead of populating the
router table with one manager per recognized enabled name.  This theorem
evaluates the embedded code at the failing inputs. -/
theorem c1_init_managers_raises_type_error :
    init_managers envEx "/repo/models" 300 true ["canary-1b-v2"]
      = Except.error PyErr.typeError
    ∧ init_managers envEx "/repo/models" 300 true
        ["canary-1b-v2", "parakeet-tdt-0.6b-v3"] = Except.error PyErr.typeError
    ∧ initManagersKwargs.contains "nemo_filename" = true
    ∧ modelManagerInitParams.contains "nemo_filename" = false :=
  ⟨rfl, rfl, rfl, rfl⟩

/-- Claim C4: in any state, a step of the eviction monitor or of the unload
path never evicts a resource while `usage_count > 0` — both leave the state
unchanged, regardless of how long the resource has been idle (any `now`). -/
theorem c4_no_eviction_while_in_use (s : MMState) (now : Nat)
    (h : 0 < s.usage_count) :
    monitor_tick s now = s ∧ unload_model_py s = s := by
  have h1 : unload_model_py s = s := by
    unfold unload_model_py
    cases hm : s.model with
    | none => rfl
    | some m => simp [h]
  have h2 : monitor_tick s now = s := by
    unfold monitor_tick
    cases hm : s.model with
    | none => rfl
    | some m => simp [h]
  exact ⟨h2, h1⟩

/-- Witness for C4: a loaded manager with 2 outstanding leases, idle far
beyond its timeout, is not evicted by a monitor tick or the unload path. -/
theorem c4_witness :
    monitor_tick busyMgr 1000000 = busyMgr ∧ unload_model_py busyMgr = busyMgr :=
  c4_no_eviction_while_in_use busyMgr 1000000 (by decide)

/-- Claim C5: `force_unload` returns `false` iff `usage_count > 0` at call
time, and then changes nothing; otherwise it returns `true` and afterwards
the model handle is absent (also when it already was). -/
theorem c5_force_unload_iff_busy (s : MMState) :
    ((force_unload s).1 = false ↔ 0 < s.usage_count)
    ∧ (0 < s.usage_count → force_unload s = (false, s))
    ∧ (s.usage_count = 0 →
        (force_unload s).1 = true ∧ ((force_unload s).2).model = none) := by
  refine ⟨?_, ?_, ?_⟩
  · by_cases h : 0 < s.usage_count
    · simp [force_unload, h]
    · simp [force_unload, h]
  · intro h
    simp [force_unload, h]
  · intro h
    have h0 : ¬ 0 < s.usage_count := by omega
    refine ⟨by simp [force_unload, h0], ?_⟩
    simp only [force_unload, h0, if_false]
    unfold unload_model_py
    cases hm : s.model with
    | none => simp [hm]
    | some m => simp [h0]

/-- Witness for C5: with two leases outstanding `force_unload` reports
`false` and changes nothing; with none outstanding it reports `true` and
the handle is gone. -/
theorem c5_witness :
    force_unload busyMgr = (false, busyMgr)
    ∧ (force_unload idleMgr).1 = true ∧ ((force_unload idleMgr).2).model = none :=
  ⟨(c5_force_unload_iff_busy busyMgr).2.1 (by decide),
   ((c5_force_unload_iff_busy idleMgr).2.2 (by decide)).1,
   ((c5_force_unload_iff_busy idleMgr).2.2 (by decide)).2⟩

/-- Claim C6: the router-level pre-warm `MultiModelManager.load_model` does
NOT always return a boolean: with a manager in the router table it
evaluates `manager.load_model()`, but `ModelManager` defines no method
named `load_model` (its pre-warm method is `force_load`), so the call
raises `AttributeError` instead of reporting the load outcome.  Only the
unknown/disabled-name path returns `False` as claimed. -/
theorem c6_router_load_model_attribute_error :
    multi_load_model [("canary-1b-v2", mgrEx)] "canary-1b-v2" (Except.ok 1)
      = Except.error PyErr.attributeError
    ∧ modelManagerMethods.contains "load_model" = false
    ∧ multi_load_model [] "canary-1b-v2" (Except.ok 1) = Except.ok false :=
  ⟨rfl, rfl, rfl⟩

/-- Claim C7 (counterexample): the monitor's check period is computed with
Python floor division (`timeout_sec // 2`), so for `timeout_sec = 7` it is
3, not the claimed `min(30, timeout_sec / 2) = 3.5` with exact division. -/
theorem c7_counterexample :
    ¬ ((check_interval 7 : ℚ) = spec_check_period 7) := by
  have h1 : check_interval 7 = 3 := rfl
  have h2 : spec_check_period 7 = 7 / 2 := by
    unfold spec_check_period
    rw [min_eq_right] <;> norm_num
  rw [h1, h2]
  norm_num

/-- Claim C7 (amended): for every `timeout_sec`, the eviction monitor's
check period equals `min(30, ⌊timeout_sec / 2⌋)` — the floor of the halved
timeout, capped at 30. -/
theorem c7_check_interval_floor (timeout_sec : Nat) :
    (check_interval timeout_sec : ℤ) = min 30 ⌊(timeout_sec : ℚ) / 2⌋ := by
  have hfl : ⌊(timeout_sec : ℚ) / 2⌋ = (timeout_sec : ℤ) / 2 := by
    have h := Rat.floor_intCast_div_natCast (timeout_sec : ℤ) 2
    simpa using h
  rw [hfl]
  unfold check_interval
  push_cast
  rfl

/-- Claim C8: the vendor-prefixed spelling, the canonical spelling and the
documented short aliases of each enabled canonical name all normalize to
the same canonical name, hence resolve to the same entry of any router
table. -/
theorem c8_alias_resolution (table : List (String × MMState)) :
    (normalize_model_name "nvidia/canary-1b-v2" = "canary-1b-v2"
      ∧ normalize_model_name "canary-1b-v2" = "canary-1b-v2"
      ∧ normalize_model_name "canary" = "canary-1b-v2"
      ∧ normalize_model_name "canary-1b" = "canary-1b-v2")
    ∧ (normalize_model_name "nvidia/parakeet-tdt-0.6b-v3" = "parakeet-tdt-0.6b-v3"
      ∧ normalize_model_name "parakeet-tdt-0.6b-v3" = "parakeet-tdt-0.6b-v3"
      ∧ normalize_model_name "parakeet" = "parakeet-tdt-0.6b-v3"
      ∧ normalize_model_name "parakeet-tdt" = "parakeet-tdt-0.6b-v3")
    ∧ (get_model_manager table "nvidia/canary-1b-v2"
        = get_model_manager table "canary-1b-v2"
      ∧ get_model_manager table "canary" = get_model_manager table "canary-1b-v2"
      ∧ get_model_manager table "canary-1b" = get_model_manager table "canary-1b-v2")
    ∧ (get_model_manager table "nvidia/parakeet-tdt-0.6b-v3"
        = get_model_manager table "parakeet-tdt-0.6b-v3"
      ∧ get_model_manager table "parakeet"
        = get_model_manager table "parakeet-tdt-0.6b-v3"
      ∧ get_model_manager table "parakeet-tdt"
        = get_model_manager table "parakeet-tdt-0.6b-v3") := by
  have n1 : normalize_model_name "nvidia/canary-1b-v2" = "canary-1b-v2" := by decide
  have n2 : normalize_model_name "canary-1b-v2" = "canary-1b-v2" := by decide
  have n3 : normalize_model_name "canary" = "canary-1b-v2" := by decide
  have n4 : normalize_model_name "canary-1b" = "canary-1b-v2" := by decide
  have p1 : normalize_model_name "nvidia/parakeet-tdt-0.6b-v3"
      = "parakeet-tdt-0.6b-v3" := by decide
  have p2 : normalize_model_name "parakeet-tdt-0.6b-v3"
      = "parakeet-tdt-0.6b-v3" := by decide
  have p3 : normalize_model_name "parakeet" = "parakeet-tdt-0.6b-v3" := by decide
  have p4 : normalize_model_name "parakeet-tdt" = "parakeet-tdt-0.6b-v3" := by decide
  refine ⟨⟨n1, n2, n3, n4⟩, ⟨p1, p2, p3, p4⟩, ⟨?_, ?_, ?_⟩, ⟨?_, ?_, ?_⟩⟩ <;>
    simp [get_model_manager, n1, n2, n3, n4, p1, p2, p3, p4]

/-- Claim C9: a requested name whose normalized form is not in the router
table resolves to `None`, the router-level lease raises the typed
`ValueError`, and no manager is ever created for it — in particular names
skipped at startup (absent from `MODEL_CONFIGS`) produce no table entry. -/
theorem c9_unknown_name_not_available (table : List (String × MMState))
    (model_name : String)
    (h : table.lookup (normalize_model_name model_name) = none) :
    get_model_manager table model_name = none
    ∧ multi_get_model table model_name = Except.error PyErr.valueError
    ∧ init_managers envEx "/repo/models" 300 true ["no-such-model"]
        = Except.ok [] := by
  have h1 : get_model_manager table model_name = none := h
  exact ⟨h1, by simp [multi_get_model, h1], rfl⟩

/-- Witness for C9: the name "whisper-large" on an empty router table. -/
theorem c9_witness :
    get_model_manager [] "whisper-large" = none
    ∧ multi_get_model [] "whisper-large" = Except.error PyErr.valueError
    ∧ init_managers envEx "/repo/models" 300 true ["no-such-model"]
        = Except.ok [] :=
  c9_unknown_name_not_available [] "whisper-large" rfl

/-- Claim C10: falsy constructor arguments are not used: passing
`timeout_sec = 0` (likewise an empty or absent `model_path`, an empty
`model_name`) makes `ModelManager.__init__` substitute the
environment-variable or built-in default, so a zero idle timeout cannot be
configured through the constructor argument; a non-zero timeout argument is
kept. -/
theorem c10_falsy_ctor_args_use_defaults (env : Env) (mp : Option String)
    (mn : String) (fp : Option Bool) :
    (mkModelManager env mp mn 0 fp).timeout_sec = env.MODEL_TIMEOUT_SEC.getD 300
    ∧ (mkModelManager env (some "") mn 0 fp).model_path
        = env.MODEL_PATH.getD env.default_models_dir
    ∧ (mkModelManager env none mn 0 fp).model_path
        = env.MODEL_PATH.getD env.default_models_dir
    ∧ (mkModelManager env mp "" 0 fp).model_name
        = env.MODEL_NAME.getD "nvidia/canary-1b-v2"
    ∧ (∀ t : Nat, t ≠ 0 → (mkModelManager env mp mn t fp).timeout_sec = t) := by
  refine ⟨?_, ?_, ?_, ?_, ?_⟩
  · simp [mkModelManager, pyOrNat]
  · simp [mkModelManager, pyOrStrOpt]
  · simp [mkModelManager, pyOrStrOpt]
  · simp [mkModelManager, pyOrStr]
  · intro t ht
    simp [mkModelManager, pyOrNat, ht]

/-- Witness for C10: with no environment variables set, `timeout_sec = 0`
yields the built-in 300-second default while `timeout_sec = 7` is kept. -/
theorem c10_witness :
    (mkModelManager envEx none "nvidia/canary-1b-v2" 0 (some true)).timeout_sec = 300
    ∧ (mkModelManager envEx none "nvidia/canary-1b-v2" 7 (some true)).timeout_sec = 7 :=
  ⟨(c10_falsy_ctor_args_use_defaults envEx none "nvidia/canary-1b-v2" (some true)).1,
   (c10_falsy_ctor_args_use_defaults envEx none "nvidia/canary-1b-v2" (some true)).2.2.2.2
     7 (by decide)⟩

/-- Once a model handle is present, a `get_model` entry does not reload:
`ensure_model_loaded` returns the stored handle and leaves it in place. -/
theorem run_enters_loaded (m now : Nat) :
    ∀ (handles : List Nat) (s : MMState), s.model = some m →
      (run_enters s handles now).1 = handles.map (fun _ => Except.ok (some m))
      ∧ (run_enters s handles now).2.1.model = some m
      ∧ (run_enters s handles now).2.2 = 0 := by
  intro handles
  induction handles with
  | nil =>
    intro s hs
    exact ⟨rfl, hs, rfl⟩
  | cons h rest ih =>
    intro s hs
    have hens : ensure_model_loaded s (Except.ok h) = (Except.ok (some m), s) := by
      simp [ensure_model_loaded, hs]
    have henter : get_model_enter s (Except.ok h) now
        = (Except.ok (some m),
           { s with usage_count := s.usage_count + 1, last_used_time := now }) := by
      simp [get_model_enter, hens]
    have hmodel :
        ({ s with usage_count := s.usage_count + 1, last_used_time := now } : MMState).model
          = some m := hs
    obtain ⟨ih1, ih2, ih3⟩ := ih _ hmodel
    rw [hs] at ih3
    refine ⟨?_, ?_, ?_⟩
    · simp [run_enters, henter, ih1]
    · simp [run_enters, henter, ih2]
    · simp [run_enters, henter, ih3, hs]

/-- Claim C2: interleaving any number N ≥ 1 of first-time `get_model`
entries on a freshly constructed (Unloaded) manager — each entry's critical
section being atomic under the manager's lock, which also makes at most one
load in flight at any time — executes the load step exactly once, and every
caller receives the same resource instance, the one produced by the first
load. -/
theorem c2_concurrent_first_leases_load_once (env : Env) (mp : Option String)
    (mn : String) (ts : Nat) (fp : Option Bool) (h0 : Nat) (handles : List Nat)
    (now : Nat) :
    (run_enters (mkModelManager env mp mn ts fp) (h0 :: handles) now).1
      = Except.ok (some h0) :: handles.map (fun _ => Except.ok (some h0))
    ∧ (run_enters (mkModelManager env mp mn ts fp) (h0 :: handles) now).2.2 = 1
    ∧ (run_enters (mkModelManager env mp mn ts fp) (h0 :: handles) now).2.1.model
        = some h0 := by
  set s0 := mkModelManager env mp mn ts fp with hs0
  have hmodel : s0.model = none := rfl
  have hload : s0.is_loading = false := rfl
  have hens : ensure_model_loaded s0 (Except.ok h0)
      = (Except.ok (some h0), { s0 with model := some h0, monitor_running := true }) := by
    simp [ensure_model_loaded, hmodel, hload]
  have henter : get_model_enter s0 (Except.ok h0) now
      = (Except.ok (some h0),
         { s0 with model := some h0, monitor_running := true,
                   usage_count := s0.usage_count + 1, last_used_time := now }) := by
    simp [get_model_enter, hens]
  have hmodel1 :
      ({ s0 with model := some h0, monitor_running := true,
                 usage_count := s0.usage_count + 1, last_used_time := now } : MMState).model
        = some h0 := rfl
  obtain ⟨ih1, ih2, ih3⟩ := run_enters_loaded h0 now handles _ hmodel1
  rw [hload] at ih3
  refine ⟨?_, ?_, ?_⟩
  · simp [run_enters, henter, ih1]
  · simp [run_enters, henter, ih3, hmodel, hload]
  · simp [run_enters, henter, ih2]

/-- No atomic operation leaves the `_is_loading` flag set: every critical
section that sets it clears it (in a `finally`) before releasing the lock. -/
theorem applyOp_is_loading (s : MMState) (op : MMOp) :
    (applyOp s op).is_loading = s.is_loading := by
  have hunload : ∀ t : MMState, (unload_model_py t).is_loading = t.is_loading := by
    intro t
    unfold unload_model_py
    cases t.model with
    | none => rfl
    | some m => by_cases h : 0 < t.usage_count <;> simp [h]
  have hens : ∀ (t : MMState) (r : Except String Nat),
      ((ensure_model_loaded t r).2).is_loading = t.is_loading := by
    intro t r
    unfold ensure_model_loaded
    cases t.model with
    | some m => rfl
    | none =>
      by_cases h : t.is_loading
      · simp [h]
      · cases r with
        | ok v => simp [h]
        | error e => simp [h]
  cases op with
  | ensure r => exact hens s r
  | enter r now =>
    show ((get_model_enter s r now).2).is_loading = s.is_loading
    unfold get_model_enter
    cases hr : ensure_model_loaded s r with
    | mk res s1 =>
      have h1 : s1.is_loading = s.is_loading := by
        have := hens s r
        rw [hr] at this
        exact this
      cases res with
      | ok v => simpa using h1
      | error e => simpa using h1
  | leave now => rfl
  | tick now =>
    show (monitor_tick s now).is_loading = s.is_loading
    unfold monitor_tick
    cases s.model with
    | none => rfl
    | some m =>
      by_cases h : 0 < s.usage_count
      · simp [h]
      · by_cases ht : s.timeout_sec ≤ now - s.last_used_time <;> simp [h, ht, hunload s]
  | funload =>
    show ((force_unload s).2).is_loading = s.is_loading
    unfold force_unload
    by_cases h : 0 < s.usage_count <;> simp [h, hunload s]
  | fload r =>
    show ((force_load s r).2).is_loading = s.is_loading
    unfold force_load
    cases hr : ensure_model_loaded s r with
    | mk res s1 =>
      have h1 : s1.is_loading = s.is_loading := by
        have := hens s r
        rw [hr] at this
        exact this
      cases res with
      | ok v => simpa using h1
      | error e => simpa using h1
  | shut =>
    show (shutdown_manager s).is_loading = s.is_loading
    unfold shutdown_manager
    cases hm : s.model with
    | none => rfl
    | some m => simp [hunload]

/-- Running any sequence of atomic operations preserves the
`_is_loading` flag. -/
theorem runOps_is_loading (ops : List MMOp) :
    ∀ s : MMState, (runOps s ops).is_loading = s.is_loading := by
  induction ops with
  | nil => intro s; rfl
  | cons op rest ih =>
    intro s
    have hstep : runOps s (op :: rest) = runOps (applyOp s op) rest := rfl
    rw [hstep, ih, applyOp_is_loading]

/-- In every reachable manager state the `_is_loading` flag is clear: no
caller can ever observe a load in progress, because the flag is set and
cleared inside a single lock-protected critical section. -/
theorem reachable_not_loading {s : MMState} (h : Reachable s) :
    s.is_loading = false := by
  obtain ⟨env, mp, mn, ts, fp, ops, hrun⟩ := h
  have hp := runOps_is_loading ops (mkModelManager env mp mn ts fp)
  rw [hrun] at hp
  exact hp

/-- Claim C3: in every reachable state, `ensure_model_loaded` never returns
a null resource — its result is a loaded handle or a raised error (even the
branch guarded by the loading-in-progress flag cannot return `None`, since
that flag is never observable) — and when the load step fails on an
Unloaded manager, the error propagates and the state is left exactly as it
was: model handle absent, loading flag still clear. -/
theorem c3_load_failure_leaves_unloaded (s : MMState) (hreach : Reachable s)
    (r : Except String Nat) :
    (ensure_model_loaded s r).1 ≠ Except.ok none
    ∧ (∀ e, r = Except.error e → s.model = none →
        ensure_model_loaded s r = (Except.error e, s)) := by
  have hl : s.is_loading = false := reachable_not_loading hreach
  constructor
  · cases hm : s.model with
    | some m => simp [ensure_model_loaded, hm]
    | none =>
      cases r with
      | ok h => simp [ensure_model_loaded, hm, hl]
      | error e => simp [ensure_model_loaded, hm, hl]
  · intro e hr hm
    subst hr
    simp [ensure_model_loaded, hm, hl]

/-- Witness for C3: on a freshly constructed manager (reachable via the
empty operation sequence), a failing load propagates its error, leaves the
state unchanged (Unloaded), and the result is not a null resource. -/
theorem c3_witness :
    ensure_model_loaded mgrEx (Except.error "load failed")
      = (Except.error "load failed", mgrEx)
    ∧ (ensure_model_loaded mgrEx (Except.error "load failed")).1 ≠ Except.ok none := by
  have h := c3_load_failure_leaves_unloaded mgrEx
    ⟨envEx, none, "nvidia/canary-1b-v2", 300, some true, [], rfl⟩
    (Except.error "load failed")
  exact ⟨h.2 "load failed" rfl rfl, h.1⟩
